import Mathlib

/-!
Shallow embedding of `src/src/PosixAbstractThread.cpp` (the onposix
`PosixAbstractThread` class) and proofs of the spec's claims about it.

Modelling conventions:
* A signal number is a C `int`, modelled as `Int`.
* A `sigset_t` is modelled as a `Finset Int` of the signal numbers it contains.
  The finite set of signal numbers the OS considers valid is a parameter
  (`Sys.validSignals`); `sigfillset` fills a set with exactly those.
* The OS thread table is a `Finset Nat` of the ids of threads that have been
  created and not yet joined (the joinable threads), plus a fresh-id counter.
* `pthread_t handle_` is uninitialized until the first successful
  `pthread_create`; it is modelled as `Option Nat`, `none` meaning
  "never written".
* OS calls whose outcome is not determined by the modelled state
  (`pthread_create` can fail with EAGAIN, `sigaction` with EINVAL) take an
  explicit boolean oracle parameter; calls whose POSIX outcome is determined
  by the modelled state (`pthread_cancel`, `pthread_join`, `pthread_kill`
  fail exactly when the handle does not name a live thread;
  `pthread_sigmask`/`sigprocmask` fail only for an invalid `how`, which the
  source never passes) are modelled as functions of that state.
* Each method returns a `Step`: its boolean result, the updated world, and
  the list of OS requests it issued (its observable side effects).
  Logging via `DEBUG(...)` goes to an external diagnostic collaborator and
  is not part of the modelled OS state.
-/

namespace Onposix

/-- Static system configuration: the set of signal numbers the OS accepts. -/
structure Sys where
  validSignals : Finset Int
deriving DecidableEq

/-- OS-side thread bookkeeping: ids of created, not-yet-joined threads and
the next fresh id `pthread_create` would hand out. -/
structure OsState where
  live : Finset Nat
  nextId : Nat
deriving DecidableEq

/-- The data members of `PosixAbstractThread` (PosixAbstractThread.hpp):
`bool isStarted_` and `pthread_t handle_` (`none` = never written). -/
structure PosixAbstractThread where
  isStarted_ : Bool
  handle_ : Option Nat
deriving DecidableEq

/-- Constructor `PosixAbstractThread::PosixAbstractThread()`
(PosixAbstractThread.cpp:48-51): initializes `isStarted_(false)`;
`handle_` is left uninitialized. -/
def PosixAbstractThread.init : PosixAbstractThread :=
  { isStarted_ := false, handle_ := none }

/-- A `struct sigaction` as the source uses it: after `bzero` all fields are
zero/empty; only `sa_handler` is then assigned. The handler function pointer
is modelled as a numeric address. -/
structure Sigaction where
  sa_handler : Nat
  sa_mask : Finset Int
  sa_flags : Int
deriving DecidableEq

/-- The result of `bzero(&sa, sizeof(sa))`: every field cleared to zero. -/
def sigactionZero : Sigaction :=
  { sa_handler := 0, sa_mask := ∅, sa_flags := 0 }

/-- The full mutable state the methods touch: the one thread object, the OS
thread table, the calling thread's signal mask (`pthread_sigmask`) and the
process-wide signal mask (`sigprocmask`, which the spec treats as
process-wide state distinct from any one thread's mask). -/
structure World where
  os : OsState
  th : PosixAbstractThread
  mask : Finset Int
  procMask : Finset Int
deriving DecidableEq

/-- One OS request issued by a method: the observable side effects. -/
inductive Event where
  | pthreadCreate
  | pthreadCancel (h : Option Nat)
  | pthreadJoin (h : Option Nat)
  | pthreadKill (h : Option Nat) (sig : Int)
  | sigmaskBlock (m : Finset Int)
  | sigmaskUnblock (m : Finset Int)
  | sigprocmaskSet (m : Finset Int)
  | sigactionInstall (sig : Int) (sa : Sigaction)
  | setcancelstateEnable
  | runBody
deriving DecidableEq

/-- Result of one method call: boolean return value, updated world, and the
OS requests issued during the call, in order. -/
structure Step where
  ret : Bool
  w : World
  events : List Event
deriving DecidableEq

/-- Model of `pthread_create`: on success (oracle `ok`) a fresh thread id is
allocated, recorded live, and written to the output handle; on failure
(EAGAIN etc.) nothing changes and the handle is not written. Returns
(call-succeeded, id written to the handle on success, new OS state). -/
def pthread_create (os : OsState) (ok : Bool) : Bool × Nat × OsState :=
  if ok then
    (true, os.nextId, { live := insert os.nextId os.live, nextId := os.nextId + 1 })
  else
    (false, 0, os)

/-- Model of `pthread_cancel`: per POSIX the cancellation request is accepted
exactly when the handle names a live thread (otherwise ESRCH); the request
itself does not change the modelled bookkeeping. -/
def pthread_cancel (os : OsState) (h : Option Nat) : Bool :=
  match h with
  | some t => t ∈ os.live
  | none => false

/-- Model of `pthread_join`: succeeds exactly when the handle names a live
(joinable) thread, which is then consumed (no longer joinable); fails
(ESRCH/EINVAL) when the handle is unset or the thread was already joined. -/
def pthread_join (os : OsState) (h : Option Nat) : Bool × OsState :=
  match h with
  | some t =>
      if t ∈ os.live then (true, { os with live := os.live.erase t })
      else (false, os)
  | none => (false, os)

/-- Model of `pthread_kill`: the delivery request is accepted exactly when
the handle names a live thread (otherwise ESRCH). -/
def pthread_kill (os : OsState) (h : Option Nat) (sig : Int) : Bool :=
  match h with
  | some t => t ∈ os.live
  | none => false

/-- Model of `sigemptyset`: the empty signal set. -/
def sigemptyset : Finset Int := ∅

/-- Model of `sigfillset`: the set of all valid signal numbers. -/
def sigfillset (sys : Sys) : Finset Int := sys.validSignals

/-- Model of `sigaddset`: adds `sig` to the set when it is a valid signal
number; for an invalid one it fails with EINVAL and leaves the set
unchanged. Returns (call-succeeded, resulting set); the source discards the
status. -/
def sigaddset (sys : Sys) (m : Finset Int) (sig : Int) : Bool × Finset Int :=
  if sig ∈ sys.validSignals then (true, insert sig m) else (false, m)

/-- The `how` argument of `pthread_sigmask`. -/
inductive SigmaskHow where
  | sigBlock
  | sigUnblock
  | sigSetmask
deriving DecidableEq

/-- Model of `pthread_sigmask` on the calling thread's mask: per POSIX it can
fail only for an invalid `how`, and the source only ever passes the three
defined values, so the call always succeeds. Returns
(call-succeeded, new mask). -/
def pthread_sigmask (how : SigmaskHow) (cur m : Finset Int) : Bool × Finset Int :=
  match how with
  | SigmaskHow.sigBlock => (true, cur ∪ m)
  | SigmaskHow.sigUnblock => (true, cur \ m)
  | SigmaskHow.sigSetmask => (true, m)

/-- The static entry point `PosixAbstractThread::Execute`
(PosixAbstractThread.cpp:37-43), as the trace of the new thread: it calls
`pthread_setcancelstate(PTHREAD_CANCEL_ENABLE, NULL)` and then `th->run()`,
whose (subclass-supplied) trace is the parameter. -/
def Execute (runTrace : List Event) : List Event :=
  Event.setcancelstateEnable :: runTrace

/-- `PosixAbstractThread::start` (PosixAbstractThread.cpp:59-69):
if `isStarted_` return true; else `pthread_create(&handle_, ...)`, set
`isStarted_ = true` when it returned 0, and return `isStarted_`. -/
def start (w : World) (createOk : Bool) : Step :=
  if w.th.isStarted_ then
    { ret := true, w := w, events := [] }
  else
    let r := pthread_create w.os createOk
    let th' :=
      if r.1 then { isStarted_ := true, handle_ := some r.2.1 } else w.th
    { ret := th'.isStarted_,
      w := { w with os := r.2.2, th := th' },
      events := [Event.pthreadCreate] }

/-- `PosixAbstractThread::stop` (PosixAbstractThread.cpp:76-85):
if not `isStarted_` return false; else set `isStarted_ = false` and return
whether `pthread_cancel(handle_)` returned 0. -/
def stop (w : World) : Step :=
  if !w.th.isStarted_ then
    { ret := false, w := w, events := [] }
  else
    { ret := pthread_cancel w.os w.th.handle_,
      w := { w with th := { w.th with isStarted_ := false } },
      events := [Event.pthreadCancel w.th.handle_] }

/-- `PosixAbstractThread::waitForTermination` (PosixAbstractThread.cpp:92-97):
return whether `pthread_join(handle_, NULL)` returned 0. -/
def waitForTermination (w : World) : Step :=
  let r := pthread_join w.os w.th.handle_
  { ret := r.1,
    w := { w with os := r.2 },
    events := [Event.pthreadJoin w.th.handle_] }

/-- `PosixAbstractThread::blockSignal` (PosixAbstractThread.cpp:106-116):
build `m` via `sigemptyset` and `sigaddset` (status discarded), then return
whether `pthread_sigmask(SIG_BLOCK, &m, NULL)` returned 0 (logging on
failure). -/
def blockSignal (sys : Sys) (w : World) (sig : Int) : Step :=
  let m := (sigaddset sys sigemptyset sig).2
  let r := pthread_sigmask SigmaskHow.sigBlock w.mask m
  { ret := r.1,
    w := { w with mask := r.2 },
    events := [Event.sigmaskBlock m] }

/-- `PosixAbstractThread::unblockSignal` (PosixAbstractThread.cpp:126-136):
build `m` via `sigemptyset` and `sigaddset` (status discarded), then return
whether `pthread_sigmask(SIG_UNBLOCK, &m, NULL)` returned 0 (logging on
failure). -/
def unblockSignal (sys : Sys) (w : World) (sig : Int) : Step :=
  let m := (sigaddset sys sigemptyset sig).2
  let r := pthread_sigmask SigmaskHow.sigUnblock w.mask m
  { ret := r.1,
    w := { w with mask := r.2 },
    events := [Event.sigmaskUnblock m] }

/-- `PosixAbstractThread::sendSignal` (PosixAbstractThread.cpp:145-152):
return whether `pthread_kill(handle_, sig)` returned 0 (logging on failure).
No check of `isStarted_` is performed. -/
def sendSignal (w : World) (sig : Int) : Step :=
  { ret := pthread_kill w.os w.th.handle_ sig,
    w := w,
    events := [Event.pthreadKill w.th.handle_ sig] }

/-- `PosixAbstractThread::setSignalHandler` (PosixAbstractThread.cpp:170-187):
`sigfillset(&set)`; `sigprocmask(SIG_SETMASK, &set, &oldset)`; `bzero(&sa)`;
`sa.sa_handler = handler`; `sigaction(sig, &sa, NULL)` (result sets `ret`,
oracle `sigactionOk`); `sigprocmask(SIG_SETMASK, &oldset, NULL)`;
return `ret`. -/
def setSignalHandler (sys : Sys) (w : World) (sig : Int) (handler : Nat)
    (sigactionOk : Bool) : Step :=
  let set := sigfillset sys
  let oldset := w.procMask
  let w1 := { w with procMask := set }
  let sa := { sigactionZero with sa_handler := handler }
  let ret := sigactionOk
  let w2 := { w1 with procMask := oldset }
  { ret := ret,
    w := w2,
    events := [Event.sigprocmaskSet set,
               Event.sigactionInstall sig sa,
               Event.sigprocmaskSet oldset] }

/-! Concrete states used by witnesses and counterexamples. -/

/-- A freshly constructed instance: empty OS thread table, `isStarted_ = false`,
`handle_` unset, empty masks. -/
def wFresh : World :=
  { os := { live := ∅, nextId := 0 },
    th := PosixAbstractThread.init,
    mask := ∅,
    procMask := ∅ }

/-- A started instance whose thread id 0 is live and joinable. -/
def wStarted : World :=
  { os := { live := {0}, nextId := 1 },
    th := { isStarted_ := true, handle_ := some 0 },
    mask := ∅,
    procMask := ∅ }

/-- A system accepting exactly signal number 1. -/
def sysOne : Sys := { validSignals := {1} }

/-- A world whose calling-thread mask already blocks signal 1. -/
def wMaskOne : World :=
  { os := { live := ∅, nextId := 0 },
    th := PosixAbstractThread.init,
    mask := {1},
    procMask := ∅ }

/-! Theorems for the claims. -/

/-- C1: on an instance whose started flag is true, `start` returns true with
the state unchanged and no OS request issued (in particular no thread
creation); and from a not-started instance, two successive `start` calls with
no intervening `stop` both return true while issuing exactly one
`pthread_create` request (the first call issues it, the second issues
nothing). -/
theorem start_idempotent_single_create (w1 w2 : World) (ok ok2 : Bool)
    (h1 : w1.th.isStarted_ = true) (h2 : w2.th.isStarted_ = false) :
    start w1 ok = { ret := true, w := w1, events := [] } ∧
    (start w2 true).ret = true ∧
    (start w2 true).events = [Event.pthreadCreate] ∧
    (start (start w2 true).w ok2).ret = true ∧
    (start (start w2 true).w ok2).events = [] := by
  refine ⟨?_, ?_, ?_, ?_, ?_⟩ <;>
    simp [start, pthread_create, h1, h2]

theorem start_idempotent_single_create_witness :
    wStarted.th.isStarted_ = true ∧ wFresh.th.isStarted_ = false ∧
    (start wStarted true = { ret := true, w := wStarted, events := [] } ∧
     (start wFresh true).ret = true ∧
     (start wFresh true).events = [Event.pthreadCreate] ∧
     (start (start wFresh true).w true).ret = true ∧
     (start (start wFresh true).w true).events = []) :=
  ⟨rfl, rfl, start_idempotent_single_create wStarted wFresh true true rfl rfl⟩

/-- C2: on a started instance, `stop` clears the started flag unconditionally
(the resulting state has `isStarted_ = false` whatever the cancellation
outcome), its boolean result is exactly whether the OS accepted the
`pthread_cancel` request, and the only OS request issued is that
cancellation request. -/
theorem stop_clears_flag_unconditionally (w : World)
    (h : w.th.isStarted_ = true) :
    (stop w).w = { w with th := { w.th with isStarted_ := false } } ∧
    (stop w).w.th.isStarted_ = false ∧
    (stop w).ret = pthread_cancel w.os w.th.handle_ ∧
    (stop w).events = [Event.pthreadCancel w.th.handle_] := by
  refine ⟨?_, ?_, ?_, ?_⟩ <;> simp [stop, h]

theorem stop_clears_flag_unconditionally_witness :
    wStarted.th.isStarted_ = true ∧
    ((stop wStarted).w =
      { wStarted with th := { wStarted.th with isStarted_ := false } } ∧
     (stop wStarted).w.th.isStarted_ = false ∧
     (stop wStarted).ret = pthread_cancel wStarted.os wStarted.th.handle_ ∧
     (stop wStarted).events = [Event.pthreadCancel wStarted.th.handle_]) :=
  ⟨rfl, stop_clears_flag_unconditionally wStarted rfl⟩

/-- C3 counterexample: on a never-started instance, `sendSignal` is not a
side-effect-free rejection: it issues a `pthread_kill` request (the claim
says no side effect is performed). -/
theorem sendSignal_no_reject_counterexample :
    wFresh.th.isStarted_ = false ∧ (sendSignal wFresh 5).events ≠ [] := by
  decide

/-- C3 amended: `sendSignal` performs no started-flag check: on every
instance it issues exactly one `pthread_kill` request on the stored handle
and returns whether the OS accepted that request, leaving the state
unchanged; on an instance whose handle was never set the request fails, so
the result is false, but via the failed OS call, not an up-front
invalid-state rejection. -/
theorem sendSignal_forwards_unconditionally (w : World) (sig : Int) :
    (sendSignal w sig).events = [Event.pthreadKill w.th.handle_ sig] ∧
    (sendSignal w sig).ret = pthread_kill w.os w.th.handle_ sig ∧
    (sendSignal w sig).w = w ∧
    (w.th.handle_ = none → (sendSignal w sig).ret = false) := by
  refine ⟨rfl, rfl, rfl, fun hn => ?_⟩
  simp [sendSignal, pthread_kill, hn]

theorem sendSignal_forwards_unconditionally_witness :
    wFresh.th.handle_ = none ∧ (sendSignal wFresh 5).ret = false :=
  ⟨rfl, (sendSignal_forwards_unconditionally wFresh 5).2.2.2 rfl⟩

/-- C4: on a not-started instance, `stop` returns false, leaves the whole
state unchanged (flag still false, handle untouched), and issues no OS
request, in particular no cancellation request. -/
theorem stop_not_started_noop (w : World) (h : w.th.isStarted_ = false) :
    stop w = { ret := false, w := w, events := [] } := by
  simp [stop, h]

theorem stop_not_started_noop_witness :
    wFresh.th.isStarted_ = false ∧
    stop wFresh = { ret := false, w := wFresh, events := [] } :=
  ⟨rfl, stop_not_started_noop wFresh rfl⟩

/-- C5: `waitForTermination` returns false exactly when the stored handle
does not name a live (joinable) thread; in particular it returns false when
the handle was never set (instance never started), and after a successful
`waitForTermination` an immediate second one returns false (the thread has
been joined). -/
theorem waitForTermination_false_iff_unjoinable (w : World) :
    ((waitForTermination w).ret = false ↔
      ∀ t, w.th.handle_ = some t → t ∉ w.os.live) ∧
    (w.th.handle_ = none → (waitForTermination w).ret = false) ∧
    ((waitForTermination w).ret = true →
      (waitForTermination (waitForTermination w).w).ret = false) := by
  rcases hh : w.th.handle_ with - | t
  · simp [waitForTermination, pthread_join, hh]
  · by_cases ht : t ∈ w.os.live <;>
      simp [waitForTermination, pthread_join, hh, ht]

theorem waitForTermination_false_iff_unjoinable_witness :
    (wFresh.th.handle_ = none ∧ (waitForTermination wFresh).ret = false) ∧
    ((waitForTermination wStarted).ret = true ∧
     (waitForTermination (waitForTermination wStarted).w).ret = false) :=
  ⟨⟨rfl, (waitForTermination_false_iff_unjoinable wFresh).2.1 rfl⟩,
   ⟨by decide,
    (waitForTermination_false_iff_unjoinable wStarted).2.2 (by decide)⟩⟩

/-- C6: `setSignalHandler` issues exactly, in order: a process-wide mask set
to the full signal set, an installation of the handler with a disposition
structure cleared to zero (empty `sa_mask`, zero `sa_flags`), and a
process-wide mask set back to the saved previous mask; its result is the
`sigaction` outcome, and — whether installation succeeds or fails — the
process-wide mask after the call equals its value before (and nothing else
in the state changes). -/
theorem setSignalHandler_restores_procmask (sys : Sys) (w : World) (sig : Int)
    (handler : Nat) (ok : Bool) :
    (setSignalHandler sys w sig handler ok).w.procMask = w.procMask ∧
    (setSignalHandler sys w sig handler ok).events =
      [Event.sigprocmaskSet (sigfillset sys),
       Event.sigactionInstall sig
         { sa_handler := handler, sa_mask := ∅, sa_flags := 0 },
       Event.sigprocmaskSet w.procMask] ∧
    (setSignalHandler sys w sig handler ok).ret = ok ∧
    (setSignalHandler sys w sig handler ok).w = w := by
  refine ⟨rfl, ?_, rfl, rfl⟩
  simp [setSignalHandler, sigactionZero]

/-- C7 counterexample: with signal 1 already blocked in the calling thread's
mask, `blockSignal 1` followed by `unblockSignal 1` leaves the mask empty —
not identical to never having called either. -/
theorem block_unblock_not_identity_counterexample :
    (unblockSignal sysOne (blockSignal sysOne wMaskOne 1).w 1).w.mask ≠
      wMaskOne.mask := by
  decide

/-- C7 amended: for every signal number `sig` NOT already in the calling
thread's mask, `blockSignal sig` immediately followed by `unblockSignal sig`
restores the entire state (in particular the mask, hence subsequent signal
delivery) to what it was before either call; when `sig` is already blocked,
the pair instead removes it from the mask. -/
theorem block_unblock_roundtrip (sys : Sys) (w : World) (sig : Int)
    (h : sig ∉ w.mask) :
    (unblockSignal sys (blockSignal sys w sig).w sig).w = w ∧
    (blockSignal sys w sig).ret = true ∧
    (unblockSignal sys (blockSignal sys w sig).w sig).ret = true := by
  refine ⟨?_, rfl, rfl⟩
  by_cases hv : sig ∈ sys.validSignals
  · have hm : (w.mask ∪ {sig}) \ {sig} = w.mask := by
      ext a
      by_cases ha : a = sig <;> simp [ha, h]
    simp [blockSignal, unblockSignal, pthread_sigmask, sigaddset,
      sigemptyset, hv, hm]
  · simp [blockSignal, unblockSignal, pthread_sigmask, sigaddset,
      sigemptyset, hv]

theorem block_unblock_roundtrip_witness :
    (1 : Int) ∉ wFresh.mask ∧
    ((unblockSignal sysOne (blockSignal sysOne wFresh 1).w 1).w = wFresh ∧
     (blockSignal sysOne wFresh 1).ret = true ∧
     (unblockSignal sysOne (blockSignal sysOne wFresh 1).w 1).ret = true) :=
  ⟨by decide, block_unblock_roundtrip sysOne wFresh 1 (by decide)⟩

/-- C8: the thread entry point `Execute` first enables cancellation for the
new thread and only then runs the subclass body: its first action is the
`pthread_setcancelstate(PTHREAD_CANCEL_ENABLE)` request and everything after
it is exactly the `run()` trace. -/
theorem execute_enables_cancellation_first (runTrace : List Event) :
    (Execute runTrace).head? = some Event.setcancelstateEnable ∧
    (Execute runTrace).tail = runTrace :=
  ⟨rfl, rfl⟩

/-- C9: on a not-started instance, `start` returns false exactly when native
thread creation fails; on such a failure the whole state is unchanged (the
started flag stays false), and a subsequent `start` attempts thread creation
again (it issues another `pthread_create` request). -/
theorem start_fails_iff_create_fails (w : World) (ok ok2 : Bool)
    (h : w.th.isStarted_ = false) :
    ((start w ok).ret = false ↔ ok = false) ∧
    (start w false).w = w ∧
    (start w false).ret = false ∧
    (start (start w false).w ok2).events = [Event.pthreadCreate] := by
  refine ⟨?_, ?_, ?_, ?_⟩ <;>
    simp [start, pthread_create, h] <;>
    cases ok <;> simp [h]

theorem start_fails_iff_create_fails_witness :
    wFresh.th.isStarted_ = false ∧
    (((start wFresh false).ret = false ↔ false = false) ∧
     (start wFresh false).w = wFresh ∧
     (start wFresh false).ret = false ∧
     (start (start wFresh false).w true).events = [Event.pthreadCreate]) :=
  ⟨rfl, start_fails_iff_create_fails wFresh false true rfl⟩

/-- C10: for a signal number the OS rejects as invalid, the `sigaddset`
set-building step in `blockSignal`/`unblockSignal` fails and its status is
discarded, so both operations still return true while the calling thread's
mask is left unchanged. -/
theorem invalid_signal_silently_ignored (sys : Sys) (w : World) (sig : Int)
    (h : sig ∉ sys.validSignals) :
    (sigaddset sys sigemptyset sig).1 = false ∧
    (blockSignal sys w sig).ret = true ∧
    (blockSignal sys w sig).w.mask = w.mask ∧
    (unblockSignal sys w sig).ret = true ∧
    (unblockSignal sys w sig).w.mask = w.mask := by
  refine ⟨?_, rfl, ?_, rfl, ?_⟩ <;>
    simp [sigaddset, sigemptyset, blockSignal, unblockSignal,
      pthread_sigmask, h]

theorem invalid_signal_silently_ignored_witness :
    (0 : Int) ∉ sysOne.validSignals ∧
    ((sigaddset sysOne sigemptyset 0).1 = false ∧
     (blockSignal sysOne wFresh 0).ret = true ∧
     (blockSignal sysOne wFresh 0).w.mask = wFresh.mask ∧
     (unblockSignal sysOne wFresh 0).ret = true ∧
     (unblockSignal sysOne wFresh 0).w.mask = wFresh.mask) :=
  ⟨by decide, invalid_signal_silently_ignored sysOne wFresh 0 (by decide)⟩

end Onposix
